import Mathlib

/-!
Verification of the `hello.py` script of the SemanticOrchestration
repository: a shallow embedding of its two functions, `read_pdf` and
`greetings`, of the script's top-level statements, and proofs of the
specification's claims about them.
-/

set_option linter.unusedVariables false

namespace SemanticOrchestration

/-- Observable external interactions that `read_pdf` could perform:
constructing the third-party client with a URL, or invoking the client's
PDF-reading call.  The latter appears only inside a comment in the source,
so it is never emitted by the embedding. -/
inductive ExternalEvent where
  | constructClient (url : String)
  | clientReadPdf (pdf_url : String)
deriving DecidableEq

/-- Modelled from the spec: the external third-party `LayoutPDFReader`
client (from `llmsherpa.readers`, not part of this repository) is an
opaque dependency whose constructor stores the endpoint URL it is given. -/
structure LayoutPDFReader where
  parser_api_url : String
deriving DecidableEq

/-- The hardcoded endpoint URL bound to the local `llmsherpa_api_url`
variable inside `read_pdf` in `src/hello.py`. -/
def llmsherpa_api_url : String :=
  "https://readers.llmsherpa.com/api/document/developer/parseDocument?renderFormat=all"

/-- Embedding of `read_pdf` from `src/hello.py`: it constructs a
`LayoutPDFReader` on the fixed URL and unconditionally returns the literal
`"success"`.  The second component of the result is the trace of external
interactions performed during the call. -/
def read_pdf (path : String) : String × List ExternalEvent :=
  let pdf_reader : LayoutPDFReader := { parser_api_url := llmsherpa_api_url }
  ("success", [ExternalEvent.constructClient pdf_reader.parser_api_url])

/-- Embedding of `greetings` from `src/hello.py`; the f-string
`f"Hello, {name}!"` becomes Lean string interpolation. -/
def greetings (name : String) : String :=
  s!"Hello, {name}!"

/-- The script's top-level statement `res = read_pdf("")`. -/
def res : String :=
  (read_pdf "").fst

/-- The lines the script writes to standard output: the single
`print(res)` statement at the bottom of `src/hello.py`. -/
def script_stdout : List String :=
  [res]

/-- Error raised by the external constructor in the counterfactual (spec
section 7) where construction fails; represented by its message. -/
abbrev ConstructorError := String

/-- Embedding of `read_pdf` with the external constructor left abstract as
a fallible operation `ctor`, used to reason about error propagation: the
constructor call is the only operation executed, and `read_pdf` wraps no
handler around it. -/
def read_pdfE (ctor : String → Except ConstructorError LayoutPDFReader)
    (path : String) : Except ConstructorError String :=
  match ctor llmsherpa_api_url with
  | Except.ok _ => Except.ok "success"
  | Except.error e => Except.error e

/-- The whole script under the fallible-constructor model: it evaluates
`read_pdf("")` and, only if that returns normally, prints the result. -/
def scriptE (ctor : String → Except ConstructorError LayoutPDFReader) :
    Except ConstructorError (List String) :=
  match read_pdfE ctor "" with
  | Except.ok r => Except.ok [r]
  | Except.error e => Except.error e

/-- A concrete always-failing constructor, standing for the spec's
malformed-URL counterfactual. -/
def failingCtor : String → Except ConstructorError LayoutPDFReader :=
  fun _ => Except.error "malformed URL"

/-- Unfolding of the interpolated string in `greetings` to explicit
concatenation. -/
theorem greetings_eq_concat (s : String) : greetings s = "Hello, " ++ s ++ "!" :=
  rfl

/-- C1: for every string input `s`, `greetings(s)` returns exactly the
string `"Hello, " + s + "!"`. -/
theorem C1_greetings_value (s : String) : greetings s = "Hello, " ++ s ++ "!" :=
  greetings_eq_concat s

/-- C2: for every string input `p`, including the empty string,
`read_pdf(p)` returns exactly the string `"success"`. -/
theorem C2_read_pdf_returns_success (p : String) : (read_pdf p).fst = "success" :=
  rfl

/-- C3: running the script calls `read_pdf` with the empty string, binds
the result to `res`, and prints it, producing exactly the line
`success` on standard output. -/
theorem C3_script_prints_success :
    res = (read_pdf "").fst ∧ script_stdout = ["success"] :=
  ⟨rfl, rfl⟩

/-- C4, counterexample: the claim that `path` is an argument of the
`LayoutPDFReader` construction fails at the concrete input
`"/tmp/any.pdf"`: no construction event carries that path. -/
theorem C4_path_passed_to_ctor_cex :
    ExternalEvent.constructClient "/tmp/any.pdf" ∉ (read_pdf "/tmp/any.pdf").snd := by
  decide

/-- C4, amended: in `read_pdf` the `path` parameter is not passed to the
client constructor and is unused entirely; the constructor's sole argument
is the fixed API URL. -/
theorem C4_path_unused_ctor_gets_url (p : String) :
    (read_pdf p).snd = [ExternalEvent.constructClient llmsherpa_api_url] ∧
      read_pdf p = read_pdf "" :=
  ⟨rfl, rfl⟩

/-- C5: the result of `read_pdf` does not depend on its `path` argument:
for every pair of strings, the calls have identical results (value and
external-interaction trace alike). -/
theorem C5_read_pdf_path_independent (p1 p2 : String) : read_pdf p1 = read_pdf p2 :=
  rfl

/-- C6: for every input string, the only external interaction `read_pdf`
performs is constructing the client with exactly the fixed URL; the
client's read operation is never invoked. -/
theorem C6_only_interaction_is_ctor (p : String) :
    (read_pdf p).snd = [ExternalEvent.constructClient llmsherpa_api_url] ∧
      ∀ u : String, ExternalEvent.clientReadPdf u ∉ (read_pdf p).snd := by
  refine ⟨rfl, ?_⟩
  intro u h
  simp [read_pdf] at h

/-- C7: `read_pdf` cannot fail: for every string input it returns
normally (it is a total function of the embedding) with the success value
and the single construction interaction. -/
theorem C7_read_pdf_total (p : String) :
    read_pdf p = ("success", [ExternalEvent.constructClient llmsherpa_api_url]) :=
  rfl

/-- C8: if the `LayoutPDFReader` constructor fails, the failure propagates
unhandled through `read_pdf` and terminates the script: `read_pdf` errors
with `e` exactly when the constructor errors with `e`, and a constructor
error makes the whole script end in that error with nothing printed. -/
theorem C8_ctor_failure_propagates
    (ctor : String → Except ConstructorError LayoutPDFReader) (p : String)
    (e : ConstructorError) :
    (read_pdfE ctor p = Except.error e ↔ ctor llmsherpa_api_url = Except.error e) ∧
      (ctor llmsherpa_api_url = Except.error e → scriptE ctor = Except.error e) := by
  cases hc : ctor llmsherpa_api_url with
  | error e2 =>
      refine ⟨?_, ?_⟩
      · simp [read_pdfE, hc]
      · intro h
        injection h with h2
        simp [scriptE, read_pdfE, hc, h2]
  | ok r =>
      refine ⟨?_, ?_⟩
      · simp [read_pdfE, hc]
      · intro h
        exact absurd h (by simp)

/-- Witness for C8 at the concrete always-failing constructor. -/
theorem C8_ctor_failure_propagates_witness :
    failingCtor llmsherpa_api_url = Except.error "malformed URL" ∧
      read_pdfE failingCtor "" = Except.error "malformed URL" ∧
      scriptE failingCtor = Except.error "malformed URL" :=
  ⟨rfl, (C8_ctor_failure_propagates failingCtor "" "malformed URL").1.mpr rfl,
    (C8_ctor_failure_propagates failingCtor "" "malformed URL").2 rfl⟩

/-- C9: `greetings` is pure and total: for every string input it returns
normally with a result value, and two calls with the same argument return
the same string. -/
theorem C9_greetings_pure_total (s : String) :
    (∃ r : String, greetings s = r) ∧ greetings s = greetings s :=
  ⟨⟨greetings s, rfl⟩, rfl⟩

/-- C10: `greetings` is injective: distinct inputs yield distinct
greeting strings. -/
theorem C10_greetings_injective (s1 s2 : String) (h : s1 ≠ s2) :
    greetings s1 ≠ greetings s2 := by
  intro heq
  apply h
  rw [greetings_eq_concat s1, greetings_eq_concat s2] at heq
  have hd := congrArg String.data heq
  simp only [String.data_append, List.append_assoc] at hd
  have h1 := List.append_cancel_left hd
  have h2 := List.append_cancel_right h1
  exact String.ext h2

/-- Witness for C10 at a concrete pair of distinct strings. -/
theorem C10_greetings_injective_witness :
    ("Alice" : String) ≠ "Bob" ∧ greetings "Alice" ≠ greetings "Bob" :=
  ⟨by decide, C10_greetings_injective "Alice" "Bob" (by decide)⟩

end SemanticOrchestration
